import Mathlib

/-!
Verification of the chunked-embedding / retrieval-augmented pipeline
(`src/main.rs`, `src/models.rs`) against its natural-language specification.

The Rust code is shallowly embedded:
* `CustomerFeedback` mirrors the struct in `src/models.rs`; Rust `i32` fields
  become `Int`, `f64` fields become `Rat` (the claims under verification are
  about string templates, batching and ordering, never about floating-point
  rounding behaviour).
* `generate_summary` mirrors `CustomerFeedback::generate_summary`; Rust's
  fixed-precision float rendering is modelled by `formatFixed`.
* The derived `PartialEq` (which compares every field) is embedded as
  `beqCustomerFeedback`; the manual `Ord` impl (identifier only) as
  `cmpCustomerFeedback`.
* `process_chunk` and the chunk loop of `main` become `process_chunk` /
  `runChunks`, instrumented with an explicit event trace (`RunEvent`) so that
  the pacing and logging behaviour is visible; the embedding service is an
  oracle parameter.
* The retrieval-augmented pipeline (`parallel!(passthrough, lookup)` → `map`
  → `prompt`) becomes `mapStage` / `chain`, with the lookup and the LLM as
  oracle parameters.
* CSV row parsing is external (`csv` crate); rows arrive as
  `Except String CustomerFeedback` and `collectRows` mirrors
  `collect::<Result<Vec<_>, _>>()`.
-/

/-- Render a natural number padded on the left with zeros to `len` digits
(used for the fractional part of fixed-precision formatting). -/
def padZeros (len : Nat) (s : String) : String :=
  String.mk (List.replicate (len - s.length) '0') ++ s

/-- Fixed-precision decimal rendering of a rational, modelling Rust's
fixed-precision `f64` display (round half up via floor division; the exact
tie-breaking mode is irrelevant to every claim below). -/
def formatFixed (prec : Nat) (q : Rat) : String :=
  let rounded : Int := Int.fdiv (2 * q.num * (10 : Int) ^ prec + (q.den : Int)) (2 * (q.den : Int))
  let sign := if rounded < 0 then "-" else ""
  let n := rounded.natAbs
  if prec = 0 then sign ++ toString n
  else sign ++ toString (n / 10 ^ prec) ++ "." ++ padZeros prec (toString (n % 10 ^ prec))

/-- The `CustomerFeedback` struct of `src/models.rs`.  `profile_summary` is the
derived field populated by `generate_summary` (serde-skipped, embed-annotated). -/
structure CustomerFeedback where
  customer_id : String
  age : Int
  gender : String
  country : String
  income : Rat
  product_quality : Int
  service_quality : Int
  purchase_frequency : Int
  feedback_score : String
  loyalty_level : String
  satisfaction_score : Rat
  profile_summary : String
deriving DecidableEq, Repr

/-- The `PartialEq` implementation of `CustomerFeedback` as the code actually
defines it: `#[derive(PartialEq)]` compares every field, `profile_summary`
included.  (The comment in `src/models.rs` claims equality uses only
`customer_id`, but only the marker trait `Eq` is implemented manually; the
comparison itself is the derive.) -/
def beqCustomerFeedback (a b : CustomerFeedback) : Bool :=
  a.customer_id == b.customer_id && a.age == b.age && a.gender == b.gender &&
  a.country == b.country && a.income == b.income &&
  a.product_quality == b.product_quality && a.service_quality == b.service_quality &&
  a.purchase_frequency == b.purchase_frequency && a.feedback_score == b.feedback_score &&
  a.loyalty_level == b.loyalty_level && a.satisfaction_score == b.satisfaction_score &&
  a.profile_summary == b.profile_summary

/-- The manual `Ord` implementation of `CustomerFeedback`:
`self.customer_id.cmp(&other.customer_id)`. -/
def cmpCustomerFeedback (a b : CustomerFeedback) : Ordering :=
  compare a.customer_id b.customer_id

/-- `CustomerFeedback::generate_summary` of `src/models.rs`: overwrites
`profile_summary` with the fixed template rendering of the source fields. -/
def generate_summary (c : CustomerFeedback) : CustomerFeedback :=
  { c with profile_summary :=
      "Customer Profile: " ++ toString c.age ++ " year old " ++ c.gender ++
      " from " ++ c.country ++ " with income $" ++ formatFixed 2 c.income ++
      ". Product Quality Rating: " ++ toString c.product_quality ++
      "/10, Service Quality: " ++ toString c.service_quality ++
      "/10. Purchases " ++ toString c.purchase_frequency ++
      " times per year. Feedback Score: " ++ c.feedback_score ++
      ". Loyalty Level: " ++ c.loyalty_level ++
      ". Satisfaction Score: " ++ formatFixed 1 c.satisfaction_score ++ "%" }

/-- The tuple of source fields of a record (everything except the derived
`profile_summary`). -/
def sourceFields (c : CustomerFeedback) :
    String × Int × String × String × Rat × Int × Int × Int × String × String × Rat :=
  (c.customer_id, c.age, c.gender, c.country, c.income, c.product_quality,
   c.service_quality, c.purchase_frequency, c.feedback_score, c.loyalty_level,
   c.satisfaction_score)

/-! ## Chunked embedding producer (`src/main.rs`) -/

/-- An embedding vector (opaque numeric payload; the pipeline never inspects
its contents). -/
abbrev Emb := List Rat

/-- The embedding service collaborator: given the chunk number and the chunk,
it either fails (network, auth, quota) or returns the (record, embedding)
pairs that `EmbeddingsBuilder::build` produces for that chunk. -/
abbrev EmbedOracle := Nat → List CustomerFeedback → Except String (List (CustomerFeedback × Emb))

/-- Observable events of the chunk loop: the embedding call for a chunk, the
rate-limit pause inside `process_chunk`, and the error line printed by the
`Err` arm of the loop in `main`. -/
inductive RunEvent where
  | embedCall : Nat → RunEvent
  | sleep : Nat → RunEvent
  | logError : Nat → RunEvent
deriving DecidableEq, Repr

/-- `process_chunk` of `src/main.rs`: call the embedding service on the chunk;
on success sleep 200 ms (the rate-limit pause) and return the pairs; on
failure the `?` operator returns the error immediately, so no sleep happens.
The value is paired with the trace of events the call emits. -/
def process_chunk (embed : EmbedOracle) (chunk : List CustomerFeedback) (chunk_num : Nat) :
    Except String (List (CustomerFeedback × Emb)) × List RunEvent :=
  match embed chunk_num chunk with
  | .error e => (.error e, [.embedCall chunk_num])
  | .ok pairs => (.ok pairs, [.embedCall chunk_num, .sleep chunk_num])

/-- The chunk loop of `main`: for each chunk in order, run `process_chunk`;
on `Ok` extend the accumulated output, on `Err` print the error and
`continue` with the next chunk.  Chunk numbering starts at `n`
(`main` uses `chunk_num + 1`, i.e. starts at 1). -/
def runChunks (embed : EmbedOracle) :
    List (List CustomerFeedback) → Nat → List (CustomerFeedback × Emb) × List RunEvent
  | [], _ => ([], [])
  | c :: cs, n =>
    match process_chunk embed c n with
    | (.ok pairs, evs) =>
      let rest := runChunks embed cs (n + 1)
      (pairs ++ rest.1, evs ++ rest.2)
    | (.error _, evs) =>
      let rest := runChunks embed cs (n + 1)
      (rest.1, evs ++ [.logError n] ++ rest.2)

/-- `customers.chunks(CHUNK_SIZE)` of `src/main.rs`: contiguous chunks of size
at most `B`, in order.  (Rust's `slice::chunks` panics on chunk size 0; here
`B = 0` returns `[]` and every theorem assumes `0 < B`.) -/
def chunksOf : Nat → List α → List (List α)
  | 0, _ => []
  | _, [] => []
  | B + 1, a :: l => ((a :: l).take (B + 1)) :: chunksOf (B + 1) ((a :: l).drop (B + 1))
termination_by _ l => l.length
decreasing_by
  simp only [List.length_drop, List.length_cons]
  omega

/-- Specification-side characterization of the loop's output: the
concatenation, in chunk order, of exactly the successful chunks' pairs. -/
def okOutputs (embed : EmbedOracle) :
    List (List CustomerFeedback) → Nat → List (CustomerFeedback × Emb)
  | [], _ => []
  | c :: cs, n =>
    match embed n c with
    | .ok pairs => pairs ++ okOutputs embed cs (n + 1)
    | .error _ => okOutputs embed cs (n + 1)

/-- Specification-side characterization of the loop's event trace: per chunk,
an embedding call followed by a sleep on success, or an embedding call
followed by a logged error (and no sleep) on failure. -/
def expectedTrace (embed : EmbedOracle) :
    List (List CustomerFeedback) → Nat → List RunEvent
  | [], _ => []
  | c :: cs, n =>
    (match embed n c with
      | .ok _ => [.embedCall n, .sleep n]
      | .error _ => [.embedCall n, .logError n]) ++ expectedTrace embed cs (n + 1)

/-- Chunk numbers of the embedding calls in a trace, in order. -/
def calledNums (tr : List RunEvent) : List Nat :=
  tr.filterMap fun e => match e with | .embedCall n => some n | _ => none

/-- Chunk numbers of the sleeps in a trace, in order. -/
def sleepNums (tr : List RunEvent) : List Nat :=
  tr.filterMap fun e => match e with | .sleep n => some n | _ => none

/-- Chunk numbers of the chunks whose embedding call succeeded, in order. -/
def succeededNums (embed : EmbedOracle) :
    List (List CustomerFeedback) → Nat → List Nat
  | [], _ => []
  | c :: cs, n =>
    match embed n c with
    | .ok _ => n :: succeededNums embed cs (n + 1)
    | .error _ => succeededNums embed cs (n + 1)

/-! ## Retrieval-augmented pipeline (`src/main.rs`) -/

/-- The tuple produced per hit by `lookup::<_, _, CustomerFeedback>(index, 5)`:
(similarity score, document id, record).  The `map` stage destructures it as
`(score, _, profile)`. -/
abbrev LookupResult := Rat × String × CustomerFeedback

/-- The body of the per-profile `format!` in the `map` closure of the
pipeline in `main`, at position `i` of the enumeration (the rendered number
is `i + 1`). -/
def formatProfile (i : Nat) (p : LookupResult) : String :=
  "Profile " ++ toString (i + 1) ++ ":\n* Similarity Score: " ++ formatFixed 3 p.1 ++
  "\n* Customer ID: " ++ p.2.2.customer_id ++
  "\n* Demographics: " ++ toString p.2.2.age ++ " year old " ++ p.2.2.gender ++
  " from " ++ p.2.2.country ++
  "\n* Income: $" ++ formatFixed 2 p.2.2.income ++
  "\n* Satisfaction: " ++ formatFixed 1 p.2.2.satisfaction_score ++ "%" ++
  "\n* Loyalty Level: " ++ p.2.2.loyalty_level ++
  "\n* Purchase Frequency: " ++ toString p.2.2.purchase_frequency ++ " purchases/year" ++
  "\n* Product Quality: " ++ toString p.2.2.product_quality ++ "/10" ++
  "\n* Service Quality: " ++ toString p.2.2.service_quality ++ "/10" ++
  "\n* Feedback Score: " ++ p.2.2.feedback_score ++ "\n"

/-- The `map` stage of the pipeline in `main`: merge the passthrough query and
the lookup outcome into the prompt body.  `Ok` with an empty list renders the
no-profiles warning, `Ok` with hits renders the numbered profile list, `Err`
logs and renders the retrieval-failure notice. -/
def mapStage (query : String) (maybe_profiles : Except String (List LookupResult)) : String :=
  match maybe_profiles with
  | .ok profiles =>
    if profiles.isEmpty then
      "Analysis Query: " ++ query ++ "\n\nWarning: No relevant customer profiles found."
    else
      "Analysis Query: " ++ query ++ "\n\nRelevant Customer Profiles (" ++
      toString profiles.length ++ " found):\n" ++
      String.join (profiles.enum.map fun ip => formatProfile ip.1 ip.2)
  | .error _ =>
    "Analysis Query: " ++ query ++ "\n\nError: Failed to retrieve relevant customer profiles."

/-- The whole pipeline `parallel!(passthrough, lookup) → map → prompt`:
pass the query through, run the lookup, merge with `mapStage`, forward the
merged prompt to the LLM, and return the LLM outcome unchanged.  The lookup
and the LLM are oracle parameters (external collaborators). -/
def chain (lookup : String → Except String (List LookupResult))
    (llm : String → Except String String) (query : String) : Except String String :=
  llm (mapStage query (lookup query))

/-! ## Vector index

`InMemoryVectorStore` lives in the external `rig` crate; only its call sites
are in this repository, so the index is modelled from the specification. -/

/-- Modelled from the spec: a `RetrievalResult` is a tuple of
(similarity score, embedding vector, source record), ordered descending by
similarity score. -/
abbrev RetrievalResult := Rat × Emb × CustomerFeedback

/-- Modelled from the spec: the in-memory vector index
(`InMemoryVectorStore::from_documents`) owns its (record, embedding) entries
in insertion order; entries are never removed or updated after construction. -/
structure VectorStore where
  entries : List (CustomerFeedback × Emb)

/-- Modelled from the spec: `query(query_embedding, k)` scores every entry
with the similarity function (cosine or equivalent — the metric is a
parameter here), ranks descending with ties broken by insertion order
(first inserted wins, hence a stable sort), and returns up to `k` results;
fewer than `k` entries means all of them, an empty index means an empty
result and never an error. -/
def VectorStore.query (s : VectorStore) (sim : Emb → Emb → Rat) (qe : Emb) (k : Nat) :
    List RetrievalResult :=
  (((s.entries.map fun rv => (sim qe rv.2, rv.2, rv.1)).mergeSort
      fun a b => decide (b.1 ≤ a.1)).take k)

/-! ## Loading records (`src/main.rs`) -/

/-- `rdr.deserialize().collect::<Result<Vec<CustomerFeedback>, _>>()`: collect
the per-row parse outcomes, short-circuiting at the first malformed row. -/
def collectRows : List (Except String CustomerFeedback) → Except String (List CustomerFeedback)
  | [] => .ok []
  | .error e :: _ => .error e
  | .ok c :: rest => (collectRows rest).map fun cs => c :: cs

/-- The load phase of `main`: collect all rows (aborting on the first parse
error), then populate each record's summary. -/
def loadCustomers (rows : List (Except String CustomerFeedback)) :
    Except String (List CustomerFeedback) :=
  (collectRows rows).map fun cs => cs.map generate_summary

/-- The ingestion phase of `main`: load the records (a parse error aborts via
`?` before any chunk is formed) and otherwise run the chunk loop. -/
def ingest (embed : EmbedOracle) (B : Nat) (rows : List (Except String CustomerFeedback)) :
    Except String (List (CustomerFeedback × Emb) × List RunEvent) :=
  match loadCustomers rows with
  | .error e => .error e
  | .ok customers => .ok (runChunks embed (chunksOf B customers) 1)

/-! ## Concrete fixtures used by witnesses and counterexamples -/

/-- Concrete record 1. -/
def w1 : CustomerFeedback :=
  ⟨"C001", 30, "Male", "USA", 30000, 7, 8, 12, "High", "Gold", 76, ""⟩

/-- Concrete record 2. -/
def w2 : CustomerFeedback :=
  ⟨"C002", 25, "Female", "Canada", 42000, 9, 6, 4, "Medium", "Silver", 81, ""⟩

/-- Concrete record 3. -/
def w3 : CustomerFeedback :=
  ⟨"C003", 51, "Female", "UK", 58000, 5, 5, 20, "Low", "Bronze", 40, ""⟩

/-- `w1` with a different (stale) derived summary but identical source fields. -/
def w1alt : CustomerFeedback :=
  { w1 with profile_summary := "stale" }

/-- Two records sharing an identifier but differing in a source field. -/
def cA : CustomerFeedback :=
  ⟨"C010", 30, "Male", "USA", 30000, 7, 8, 12, "High", "Gold", 76, ""⟩

/-- Same identifier as `cA`, different age. -/
def cB : CustomerFeedback :=
  ⟨"C010", 40, "Male", "USA", 30000, 7, 8, 12, "High", "Gold", 76, ""⟩

/-- An embedding oracle that always succeeds, pairing each record with an
empty vector. -/
def embedW : EmbedOracle := fun _ c => .ok (c.map fun r => (r, ([] : Emb)))

/-- An embedding oracle that fails on chunk 1 and succeeds elsewhere. -/
def embedFail1 : EmbedOracle := fun n c =>
  if n = 1 then .error "quota exceeded" else .ok (c.map fun r => (r, ([] : Emb)))

/-- The concrete record collection used by witnesses. -/
def sampleRecords : List CustomerFeedback := [w1, w2, w3]

/-- A lookup oracle that succeeds with zero hits. -/
def lookupEmptyW : String → Except String (List LookupResult) := fun _ => .ok []

/-- A lookup oracle that fails. -/
def lookupErrW : String → Except String (List LookupResult) := fun _ => .error "index down"

/-- An LLM oracle that echoes its prompt. -/
def llmW : String → Except String String := fun p => .ok ("analysis of " ++ p)

/-- A concrete two-entry vector store. -/
def sampleStore : VectorStore := ⟨[(w1, [1]), (w2, [2])]⟩

/-- The empty vector store. -/
def emptyStore : VectorStore := ⟨[]⟩

/-- A concrete similarity function (dot product against the head entry;
any function works, the index contract is metric-generic). -/
def dotSim : Emb → Emb → Rat := fun q v => (q.zipWith (· * ·) v).sum

/-- Concrete row list containing one malformed row. -/
def rowsW : List (Except String CustomerFeedback) :=
  [.ok w1, .error "row 2: malformed", .ok w2]

/-! ## Helper lemmas -/

/-- The chunk loop's accumulated output is exactly the concatenation of the
successful chunks' pairs, in chunk order. -/
theorem runChunks_fst (embed : EmbedOracle) :
    ∀ (cs : List (List CustomerFeedback)) (n : Nat),
      (runChunks embed cs n).1 = okOutputs embed cs n
  | [], _ => rfl
  | c :: cs, n => by
    simp only [runChunks, process_chunk, okOutputs]
    cases h : embed n c <;> simp [h, runChunks_fst embed cs (n + 1)]

/-- The chunk loop's event trace is, per chunk in order: the embedding call,
then a sleep on success or a logged error on failure. -/
theorem runChunks_snd (embed : EmbedOracle) :
    ∀ (cs : List (List CustomerFeedback)) (n : Nat),
      (runChunks embed cs n).2 = expectedTrace embed cs n
  | [], _ => rfl
  | c :: cs, n => by
    simp only [runChunks, process_chunk, expectedTrace]
    cases h : embed n c <;> simp [h, runChunks_snd embed cs (n + 1)]

/-- Every chunk gets exactly one embedding call, in order, whatever the
oracle answers. -/
theorem calledNums_expectedTrace (embed : EmbedOracle) :
    ∀ (cs : List (List CustomerFeedback)) (n : Nat),
      calledNums (expectedTrace embed cs n) = List.range' n cs.length
  | [], _ => rfl
  | c :: cs, n => by
    simp only [expectedTrace, calledNums, List.range'_succ, List.length_cons]
    cases h : embed n c <;>
      simpa [calledNums, List.filterMap_append] using calledNums_expectedTrace embed cs (n + 1)

/-- Sleeps happen exactly for the chunks whose embedding call succeeded. -/
theorem sleepNums_expectedTrace (embed : EmbedOracle) :
    ∀ (cs : List (List CustomerFeedback)) (n : Nat),
      sleepNums (expectedTrace embed cs n) = succeededNums embed cs n
  | [], _ => rfl
  | c :: cs, n => by
    simp only [expectedTrace, sleepNums, succeededNums]
    cases h : embed n c <;>
      simpa [sleepNums, List.filterMap_append] using sleepNums_expectedTrace embed cs (n + 1)

/-- A failed chunk's error is logged. -/
theorem logError_mem_expectedTrace (embed : EmbedOracle) :
    ∀ (cs : List (List CustomerFeedback)) (n i : Nat) (h : i < cs.length) (e : String),
      embed (n + i) (cs.get ⟨i, h⟩) = .error e →
      RunEvent.logError (n + i) ∈ expectedTrace embed cs n
  | c :: cs, n, 0, _, e, hf => by
    simp only [List.get] at hf
    rw [Nat.add_zero] at hf
    simp [expectedTrace, hf]
  | c :: cs, n, i + 1, h, e, hf => by
    simp only [List.get] at hf
    have := logError_mem_expectedTrace embed cs (n + 1) i (by simpa using Nat.lt_of_succ_lt_succ h) e
      (by rw [show n + 1 + i = n + (i + 1) by omega]; exact hf)
    simp only [expectedTrace]
    rw [show n + (i + 1) = n + 1 + i by omega]
    cases hc : embed n c <;> simp [hc, this]

/-- Concatenating the chunks gives back the original list. -/
theorem chunksOf_flatten {α : Type} :
    ∀ (B : Nat) (l : List α), 0 < B → (chunksOf B l).flatten = l
  | 0, _, hB => absurd hB (by omega)
  | B + 1, [], _ => by simp [chunksOf]
  | B + 1, a :: l, hB => by
    rw [chunksOf]
    simp only [List.flatten_cons]
    rw [chunksOf_flatten (B + 1) ((a :: l).drop (B + 1)) hB, List.take_append_drop]
termination_by B l => l.length
decreasing_by simp only [List.length_drop, List.length_cons]; omega

/-- Every chunk has size at most `B`. -/
theorem chunksOf_mem_length {α : Type} :
    ∀ (B : Nat) (l : List α) (c : List α), c ∈ chunksOf B l → c.length ≤ B
  | 0, _, c, hc => by simp [chunksOf] at hc
  | B + 1, [], c, hc => by simp [chunksOf] at hc
  | B + 1, a :: l, c, hc => by
    rw [chunksOf] at hc
    rcases List.mem_cons.mp hc with h | h
    · subst h
      simp [List.length_take]
    · exact chunksOf_mem_length (B + 1) ((a :: l).drop (B + 1)) c h
termination_by B l => l.length
decreasing_by simp only [List.length_drop, List.length_cons]; omega

/-- The number of chunks is the ceiling of `N / B`. -/
theorem chunksOf_length {α : Type} :
    ∀ (B : Nat) (l : List α), 0 < B → (chunksOf B l).length = (l.length + B - 1) / B
  | 0, _, hB => absurd hB (by omega)
  | B + 1, [], _ => by
    simp only [chunksOf, List.length_nil, List.length_nil, Nat.zero_add]
    rw [Nat.div_eq_of_lt (by omega)]
  | B + 1, a :: l, hB => by
    rw [chunksOf]
    simp only [List.length_cons]
    rw [chunksOf_length (B + 1) ((a :: l).drop (B + 1)) hB]
    simp only [List.length_drop, List.length_cons]
    rw [show l.length + 1 + (B + 1) - 1 = l.length + (B + 1) from by omega,
      Nat.add_div_right _ (by omega)]
    rcases le_or_lt (l.length + 1) (B + 1) with hle | hlt
    · rw [show l.length + 1 - (B + 1) + (B + 1) - 1 = B from by omega,
        Nat.div_eq_of_lt (show B < B + 1 from by omega),
        Nat.div_eq_of_lt (show l.length < B + 1 from by omega)]
    · rw [show l.length + 1 - (B + 1) + (B + 1) - 1 = l.length from by omega]
termination_by B l => l.length
decreasing_by simp only [List.length_drop, List.length_cons]; omega

/-- Under the embedding-service contract (successful calls return one pair per
input record, in input order), the successful outputs' records form a
subsequence of the chunks' concatenation. -/
theorem okOutputs_map_fst_sublist (embed : EmbedOracle)
    (hc : ∀ i c ps, embed i c = .ok ps → ps.map Prod.fst = c) :
    ∀ (cs : List (List CustomerFeedback)) (n : Nat),
      ((okOutputs embed cs n).map Prod.fst).Sublist cs.flatten
  | [], _ => by simp [okOutputs]
  | c :: cs, n => by
    simp only [okOutputs, List.flatten_cons]
    cases h : embed n c with
    | error e =>
      exact (okOutputs_map_fst_sublist embed hc cs (n + 1)).trans
        (List.sublist_append_right c cs.flatten)
    | ok ps =>
      rw [List.map_append, hc n c ps h]
      exact (okOutputs_map_fst_sublist embed hc cs (n + 1)).append_left c

/-- A malformed row makes the whole collect fail. -/
theorem collectRows_error_of_mem :
    ∀ (rows : List (Except String CustomerFeedback)) (e : String),
      Except.error e ∈ rows → ∃ e', collectRows rows = .error e'
  | [], e, h => absurd h (List.not_mem_nil _)
  | .error e'' :: _, _, _ => ⟨e'', rfl⟩
  | .ok c :: rest, e, h => by
    have hrest : Except.error e ∈ rest := by
      rcases List.mem_cons.mp h with h' | h'
      · exact absurd h' (by simp)
      · exact h'
    obtain ⟨e', he'⟩ := collectRows_error_of_mem rest e hrest
    exact ⟨e', by simp only [collectRows, he']; rfl⟩

/-! ## Claims -/

/-- C1: if the embedding call for one batch fails, the producer still attempts
every remaining batch (exactly one embedding call per chunk, in order), the
batch error is logged, and the output is exactly the concatenation of the
successful batches' pairs, so the failed batch's records are discarded and
processing continues without aborting. -/
theorem c1_batch_failure_isolation (embed : EmbedOracle)
    (cs : List (List CustomerFeedback)) (n i : Nat) (h : i < cs.length) (e : String)
    (hf : embed (n + i) (cs.get ⟨i, h⟩) = .error e) :
    calledNums (runChunks embed cs n).2 = List.range' n cs.length ∧
    RunEvent.logError (n + i) ∈ (runChunks embed cs n).2 ∧
    (runChunks embed cs n).1 = okOutputs embed cs n := by
  refine ⟨?_, ?_, runChunks_fst embed cs n⟩
  · rw [runChunks_snd]
    exact calledNums_expectedTrace embed cs n
  · rw [runChunks_snd]
    exact logError_mem_expectedTrace embed cs n i h e hf

/-- C1 witness: chunks `[[w1], [w2]]` with the oracle failing on chunk 1:
both chunks are still called, the error is logged, only chunk 2's pairs
survive. -/
theorem c1_batch_failure_isolation_witness :
    calledNums (runChunks embedFail1 [[w1], [w2]] 1).2 = List.range' 1 2 ∧
    RunEvent.logError 1 ∈ (runChunks embedFail1 [[w1], [w2]] 1).2 ∧
    (runChunks embedFail1 [[w1], [w2]] 1).1 = okOutputs embedFail1 [[w1], [w2]] 1 :=
  c1_batch_failure_isolation embedFail1 [[w1], [w2]] 1 0 (by decide) "quota exceeded" rfl

/-- C2: for any collection and any positive batch size, the chunks are
contiguous, of size at most `B`, and concatenate back to the original list;
the loop issues exactly `⌈N / B⌉` embedding calls; and under the
embedding-service contract the successful outputs' records are a subsequence
of the original collection (order preserved within and across batches). -/
theorem c2_chunking_invariant (embed : EmbedOracle) (l : List CustomerFeedback) (B : Nat)
    (hB : 0 < B) (hc : ∀ i c ps, embed i c = .ok ps → ps.map Prod.fst = c) :
    (∀ c ∈ chunksOf B l, c.length ≤ B) ∧
    (chunksOf B l).flatten = l ∧
    (calledNums (runChunks embed (chunksOf B l) 1).2).length = (l.length + B - 1) / B ∧
    ((runChunks embed (chunksOf B l) 1).1.map Prod.fst).Sublist l := by
  refine ⟨fun c hmem => chunksOf_mem_length B l c hmem, chunksOf_flatten B l hB, ?_, ?_⟩
  · rw [runChunks_snd, calledNums_expectedTrace, List.length_range', chunksOf_length B l hB]
  · rw [runChunks_fst]
    have hsub := okOutputs_map_fst_sublist embed hc (chunksOf B l) 1
    rwa [chunksOf_flatten B l hB] at hsub

/-- C2 witness: three records, batch size 2 (the spec's end-to-end scenario
shape: 2 batches of sizes 2 and 1). -/
theorem c2_chunking_invariant_witness :
    (∀ c ∈ chunksOf 2 sampleRecords, c.length ≤ 2) ∧
    (chunksOf 2 sampleRecords).flatten = sampleRecords ∧
    (calledNums (runChunks embedW (chunksOf 2 sampleRecords) 1).2).length =
      (sampleRecords.length + 2 - 1) / 2 ∧
    ((runChunks embedW (chunksOf 2 sampleRecords) 1).1.map Prod.fst).Sublist sampleRecords :=
  c2_chunking_invariant embedW sampleRecords 2 (by decide)
    (fun _ c ps h => by
      injection h with h'
      rw [← h', List.map_map,
        show (Prod.fst ∘ fun r : CustomerFeedback => (r, ([] : Emb))) = id from rfl,
        List.map_id])

/-- C3: the pipeline never aborts solely because retrieval failed or returned
zero results: an empty lookup yields the no-profiles warning prompt, a failed
lookup yields the retrieval-failure prompt (both containing the original
query), and in every case the result is the LLM applied to some prompt, so
only an LLM error can propagate. -/
theorem c3_retrieval_degradation (lookup : String → Except String (List LookupResult))
    (llm : String → Except String String) (query : String) :
    (lookup query = .ok [] →
      chain lookup llm query =
        llm ("Analysis Query: " ++ query ++
          "\n\nWarning: No relevant customer profiles found.")) ∧
    (∀ e, lookup query = .error e →
      chain lookup llm query =
        llm ("Analysis Query: " ++ query ++
          "\n\nError: Failed to retrieve relevant customer profiles.")) ∧
    (∃ prompt, chain lookup llm query = llm prompt) := by
  refine ⟨fun h => ?_, fun e h => ?_, ⟨mapStage query (lookup query), rfl⟩⟩
  · simp [chain, mapStage, h]
  · simp [chain, mapStage, h]

/-- C3 witness: a lookup with zero hits and a failing lookup, with an echoing
LLM: both branches still reach the LLM with the respective notice prompt. -/
theorem c3_retrieval_degradation_witness :
    chain lookupEmptyW llmW "q" =
      llmW ("Analysis Query: " ++ "q" ++
        "\n\nWarning: No relevant customer profiles found.") ∧
    chain lookupErrW llmW "q" =
      llmW ("Analysis Query: " ++ "q" ++
        "\n\nError: Failed to retrieve relevant customer profiles.") :=
  ⟨(c3_retrieval_degradation lookupEmptyW llmW "q").1 rfl,
   (c3_retrieval_degradation lookupErrW llmW "q").2.1 "index down" rfl⟩

/-- C4 counterexample: with the oracle failing on batch 1, batch 2 is started
(`embedCall 2` is in the trace) yet no pause for batch 1 ever happens — the
`?` on the embedding call returns before the sleep — refuting the claim that
the producer pauses after every batch, success or failure. -/
theorem c4_no_pause_after_failed_batch :
    RunEvent.embedCall 2 ∈ (runChunks embedFail1 [[w1], [w2]] 1).2 ∧
    RunEvent.sleep 1 ∉ (runChunks embedFail1 [[w1], [w2]] 1).2 ∧
    sleepNums (runChunks embedFail1 [[w1], [w2]] 1).2 = [2] := by decide

/-- C4 (amended): after every successful batch the producer pauses before the
next batch; after a failed batch it continues immediately with no pause: the
trace is, chunk by chunk, the embedding call followed by a sleep exactly on
success, and the sleeps are exactly the successful chunks. -/
theorem c4_pause_after_successful_batch (embed : EmbedOracle)
    (cs : List (List CustomerFeedback)) (n : Nat) :
    (runChunks embed cs n).2 = expectedTrace embed cs n ∧
    sleepNums (runChunks embed cs n).2 = succeededNums embed cs n := by
  refine ⟨runChunks_snd embed cs n, ?_⟩
  rw [runChunks_snd]
  exact sleepNums_expectedTrace embed cs n

/-- C5: the claim fails on the code it describes.  `PartialEq` is derived, so
it compares every field: `cA` and `cB` share an identifier but differ in age,
and the derived equality rejects them — while the manual `Ord` comparator
does order them as equal (identifier only), contradicting the code's own
comment that equality uses only `customer_id`. -/
theorem c5_derived_equality_not_id_only :
    cA.customer_id = cB.customer_id ∧
    beqCustomerFeedback cA cB = false ∧
    cmpCustomerFeedback cA cB = Ordering.eq := by decide

/-- C6: the generated summary embeds every rendered source field in the fixed
template order — demographics (age, gender, country), income, the two quality
ratings, purchase frequency, feedback score, loyalty level, satisfaction
score — as witnessed by the explicit template separators. -/
theorem c6_summary_template_order (c : CustomerFeedback) :
    ∃ t₀ t₁ t₂ t₃ t₄ t₅ t₆ t₇ t₈ t₉ t₁₀ : String,
      (generate_summary c).profile_summary =
        t₀ ++ toString c.age ++ t₁ ++ c.gender ++ t₂ ++ c.country ++ t₃ ++
        formatFixed 2 c.income ++ t₄ ++ toString c.product_quality ++ t₅ ++
        toString c.service_quality ++ t₆ ++ toString c.purchase_frequency ++ t₇ ++
        c.feedback_score ++ t₈ ++ c.loyalty_level ++ t₉ ++
        formatFixed 1 c.satisfaction_score ++ t₁₀ :=
  ⟨"Customer Profile: ", " year old ", " from ", " with income $",
   ". Product Quality Rating: ", "/10, Service Quality: ", "/10. Purchases ",
   " times per year. Feedback Score: ", ". Loyalty Level: ", ". Satisfaction Score: ",
   "%", rfl⟩

/-- C7: `generate_summary` is a pure function of the source fields: it leaves
every source field unchanged, and two records with identical source fields
(whatever their current `profile_summary`) receive identical summaries. -/
theorem c7_summary_pure_function (c c' : CustomerFeedback)
    (h : sourceFields c = sourceFields c') :
    sourceFields (generate_summary c) = sourceFields c ∧
    (generate_summary c).profile_summary = (generate_summary c').profile_summary := by
  refine ⟨by simp only [sourceFields, generate_summary], ?_⟩
  simp only [sourceFields, Prod.mk.injEq] at h
  obtain ⟨-, h2, h3, h4, h5, h6, h7, h8, h9, h10, h11⟩ := h
  simp [generate_summary, h2, h3, h4, h5, h6, h7, h8, h9, h10, h11]

/-- C7 witness: `w1` and `w1` with a stale summary have identical source
fields, hence identical generated summaries; source fields survive. -/
theorem c7_summary_pure_function_witness :
    sourceFields w1 = sourceFields w1alt ∧
    sourceFields (generate_summary w1) = sourceFields w1 ∧
    (generate_summary w1).profile_summary = (generate_summary w1alt).profile_summary :=
  ⟨rfl, (c7_summary_pure_function w1 w1alt rfl).1, (c7_summary_pure_function w1 w1alt rfl).2⟩

/-- C8 (modelled from the spec, since `InMemoryVectorStore` lives in the
external `rig` crate): a query on an empty index returns the empty list (the
query function is total — no error case); a query with `k` larger than the
index returns exactly all entries (a permutation of the store, so none
missing, none duplicated), ranked by descending similarity. -/
theorem c8_query_bounds (s : VectorStore) (sim : Emb → Emb → Rat) (qe : Emb) (k : Nat)
    (hk : 0 < k) :
    (s.entries = [] → s.query sim qe k = []) ∧
    (s.entries.length < k →
      ((s.query sim qe k).map fun t => (t.2.2, t.2.1)).Perm s.entries ∧
      List.Pairwise (fun a b : RetrievalResult => b.1 ≤ a.1) (s.query sim qe k)) := by
  constructor
  · intro h
    simp [VectorStore.query, h]
  · intro hlen
    have hperm := List.mergeSort_perm (s.entries.map fun rv => (sim qe rv.2, rv.2, rv.1))
      (fun a b => decide (b.1 ≤ a.1))
    have hlen2 : ((s.entries.map fun rv => (sim qe rv.2, rv.2, rv.1)).mergeSort
        (fun a b => decide (b.1 ≤ a.1))).length = s.entries.length := by
      rw [hperm.length_eq, List.length_map]
    have htake : s.query sim qe k =
        (s.entries.map fun rv => (sim qe rv.2, rv.2, rv.1)).mergeSort
          (fun a b => decide (b.1 ≤ a.1)) := by
      simp only [VectorStore.query]
      exact List.take_of_length_le (by rw [hlen2]; omega)
    constructor
    · rw [htake]
      have hmap := hperm.map (fun t : RetrievalResult => (t.2.2, t.2.1))
      rw [List.map_map,
        show ((fun t : RetrievalResult => (t.2.2, t.2.1)) ∘
            fun rv : CustomerFeedback × Emb => (sim qe rv.2, rv.2, rv.1)) = id from rfl,
        List.map_id] at hmap
      exact hmap
    · rw [htake]
      have hs := @List.sorted_mergeSort RetrievalResult
        (fun a b => decide (b.1 ≤ a.1))
        (fun a b c hab hbc => by
          simp only [decide_eq_true_eq] at *
          exact le_trans hbc hab)
        (fun a b => by
          simp only [Bool.or_eq_true, decide_eq_true_eq]
          exact le_total b.1 a.1)
        (s.entries.map fun rv => (sim qe rv.2, rv.2, rv.1))
      exact hs.imp fun hab => of_decide_eq_true hab

/-- C8 witness: the empty store answers `k = 5` with the empty list; the
two-entry store answers `k = 5` with a ranked permutation of both entries. -/
theorem c8_query_bounds_witness :
    emptyStore.query dotSim [] 5 = [] ∧
    ((sampleStore.query dotSim [1] 5).map fun t => (t.2.2, t.2.1)).Perm sampleStore.entries ∧
    List.Pairwise (fun a b : RetrievalResult => b.1 ≤ a.1) (sampleStore.query dotSim [1] 5) :=
  ⟨(c8_query_bounds emptyStore dotSim [] 5 (by decide)).1 rfl,
   ((c8_query_bounds sampleStore dotSim [1] 5 (by decide)).2 (by decide)).1,
   ((c8_query_bounds sampleStore dotSim [1] 5 (by decide)).2 (by decide)).2⟩

/-- C9: one malformed row anywhere in the input makes the whole load fail:
the collect short-circuits to the parse error, `main` propagates it via `?`,
and ingestion returns that error before any chunk is formed or any embedding
call is made — no partial record collection exists. -/
theorem c9_row_parse_aborts_load (rows : List (Except String CustomerFeedback))
    (embed : EmbedOracle) (B : Nat) (e : String) (h : Except.error e ∈ rows) :
    ∃ e', loadCustomers rows = .error e' ∧ ingest embed B rows = .error e' := by
  obtain ⟨e', he'⟩ := collectRows_error_of_mem rows e h
  refine ⟨e', ?_, ?_⟩
  · simp only [loadCustomers, he']
    rfl
  · simp only [ingest, loadCustomers, he']
    rfl

/-- C9 witness: a three-row input whose second row is malformed aborts the
whole load. -/
theorem c9_row_parse_aborts_load_witness :
    Except.error "row 2: malformed" ∈ rowsW ∧
    ∃ e', loadCustomers rowsW = .error e' ∧ ingest embedW 2 rowsW = .error e' :=
  ⟨by simp [rowsW], c9_row_parse_aborts_load rowsW embedW 2 "row 2: malformed" (by simp [rowsW])⟩

/-- C10: `generate_summary` is idempotent — the generated text reads only the
source fields, never the current `profile_summary`, so a second call leaves
the record exactly as the first call did. -/
theorem c10_generate_summary_idempotent (c : CustomerFeedback) :
    generate_summary (generate_summary c) = generate_summary c := by
  simp only [generate_summary]
